import Mathlib

/-!
Shallow embedding of the Pywalfox extension background logic
(class `Extension` in the repository) and of the settings-page UI scripts.

The `Extension` class methods are modelled as pure functions from an
explicit extension state to a new state paired with the list of observable
effects they perform (browser theme API calls, extension page theme updates,
DuckDuckGo messages, native-app requests, UI notifications), in the order
the code performs them.

The helper modules imported by `extension.ts` (`./colorscheme`, `./state`,
`./native-app`, ...) are not part of the sources; their functions
(`extendPywalColors`, `generateColorscheme`) are kept abstract as fields of
an environment record `Env`, and every theorem quantifies over that
environment, so nothing is assumed about their behaviour.
-/

/-- A color, as the TypeScript code passes it around (a string). -/
abbrev Color := String

/-- IPywalColors: the array of pywal colors. -/
abbrev PywalColors := List Color

/-- Partial IPalette: the custom color overrides, a finite map from palette
color name to color, modelled as an association list. -/
abbrev CustomColors := List (String × Color)

/-- IPaletteTemplate: maps each palette color name to an index into the
pywal colors array. -/
abbrev PaletteTemplate := List (String × Nat)

/-- IThemeTemplate: the browser theme template. Its structure is never
inspected by the code under study, so it is kept opaque as a string. -/
abbrev ThemeTemplate := String

/-- IBrowserTheme: payload of browser.theme.update, kept opaque. -/
abbrev BrowserTheme := String

/-- IExtensionTheme: the CSS applied to the extension pages, kept opaque. -/
abbrev ExtensionTheme := String

/-- IDuckDuckGoTheme: the theme payload sent to DuckDuckGo, kept opaque. -/
abbrev DDGTheme := String

/-- IColorschemeTemplate: the combined template stored in state, with a
palette template and a browser theme template. -/
structure ColorschemeTemplate where
  palette : PaletteTemplate
  browser : ThemeTemplate
  deriving DecidableEq, Repr

/-- IColorscheme: the generated colorscheme, with the components the
`Extension` methods read (hash, browser, extension and duckduckgo parts). -/
structure Colorscheme where
  hash : String
  browser : BrowserTheme
  extension : ExtensionTheme
  duckduckgo : DDGTheme
  deriving DecidableEq, Repr

/-- Modelled from the spec: the color derivation functions imported from
`./colorscheme` (`extendPywalColors`, `generateColorscheme`) are not in the
sources; the spec only says the extension "derives a richer color set" and
performs "straightforward color derivation and template substitution", so
they are kept fully abstract as an environment the theorems quantify over. -/
structure Env where
  extendPywalColors : PywalColors → PywalColors
  generateColorscheme : PywalColors → Option CustomColors → ColorschemeTemplate → Colorscheme

/-- Modelled from the spec: the flat persisted settings object managed by
the `State` class (`./state`, not in the sources), restricted to the fields
the `Extension` methods under study read and write through its getters and
setters. `none` stands for a `null` stored value. -/
structure ExtState where
  pywalColors : Option PywalColors
  colorscheme : Option Colorscheme
  customColors : Option CustomColors
  applied : Bool
  ddgEnabled : Bool
  template : ColorschemeTemplate
  cssFontSize : Int
  deriving DecidableEq, Repr

/-- The observable effects of the `Extension` methods: browser theme API
calls, theme updates of the two extension pages, DuckDuckGo communication,
native-app requests, UI messages. -/
inductive Event where
  | browserThemeSet (theme : BrowserTheme)
  | browserThemeCleared
  | settingsPageThemeSet (theme : Option ExtensionTheme)
  | updatePageThemeSet (theme : Option ExtensionTheme)
  | ddgThemeSet (hash : String) (theme : DDGTheme)
  | ddgThemeCleared
  | fontSizeRequested (target : String) (value : Int)
  | notified (title : String) (message : String)
  | debugLogged (message : String)
  | pywalColorsSent (colors : PywalColors)
  | customColorsSent (colors : Option CustomColors)
  | nativeConnected
  deriving DecidableEq, Repr

/-- Modelled from the spec: `CSSTargets.UserChrome` from `../definitions`
(not in the sources), the CSS target name for the userChrome stylesheet. -/
def userChromeTarget : String := "userChrome"

/-- Extension.updateExtensionPagesTheme: sets the given theme on the
settings page and on the update page. -/
def updateExtensionPagesTheme (theme : Option ExtensionTheme) : List Event :=
  [Event.settingsPageThemeSet theme, Event.updatePageThemeSet theme]

/-- Extension.updateThemes: generates a colorscheme from the given pywal
colors, the given custom colors and the template in state; applies its
browser part, applies its extension part to both pages, sends the
DuckDuckGo theme when that option is enabled, and stores colors,
colorscheme, custom colors and the applied flag. -/
def updateThemes (env : Env) (s : ExtState) (pywalColors : PywalColors)
    (customColors : Option CustomColors) : ExtState × List Event :=
  let colorscheme := env.generateColorscheme pywalColors customColors s.template
  ({ s with
      pywalColors := some pywalColors
      colorscheme := some colorscheme
      customColors := customColors
      applied := true },
    Event.browserThemeSet colorscheme.browser ::
      updateExtensionPagesTheme (some colorscheme.extension) ++
      (if s.ddgEnabled then [Event.ddgThemeSet colorscheme.hash colorscheme.duckduckgo] else []))

/-- Extension.resetThemes: resets the browser theme, clears both extension
pages, resets the DuckDuckGo theme when that option is enabled, and nulls
out colors, colorscheme and custom colors, clearing the applied flag. -/
def resetThemes (s : ExtState) : ExtState × List Event :=
  ({ s with
      pywalColors := none
      colorscheme := none
      customColors := none
      applied := false },
    Event.browserThemeCleared ::
      updateExtensionPagesTheme none ++
      (if s.ddgEnabled then [Event.ddgThemeCleared] else []) ++
      [Event.debugLogged "Theme was disabled"])

/-- Extension.onPywalColorsReceived: extends the raw pywal colors, reports
them to the UI and updates the themes with the extended colors (and no
custom colors argument). -/
def onPywalColorsReceived (env : Env) (s : ExtState) (pywalColors : PywalColors) :
    ExtState × List Event :=
  let colors := env.extendPywalColors pywalColors
  let r := updateThemes env s colors none
  (r.1,
    Event.debugLogged "Pywal colors was fetched from daemon and applied successfully" ::
      Event.pywalColorsSent colors :: r.2)

/-- Lookup of pywalColors[idx] where idx itself may be undefined
(pywalColors[template[color]] in the code). -/
def pywalLookup (pywalColors : PywalColors) (idx : Option Nat) : Option Color :=
  match idx with
  | none => none
  | some i => pywalColors.get? i

/-- The loop of Extension.applyUpdatedPaletteTemplate: deletes every custom
color whose value equals the pywal color the template selects for it. -/
def filterCustomColors (pywalColors : PywalColors) (tpl : PaletteTemplate)
    (customColors : CustomColors) : CustomColors :=
  customColors.filter fun kv => !(pywalLookup pywalColors (List.lookup kv.1 tpl) == some kv.2)

/-- Extension.applyUpdatedPaletteTemplate: when pywal colors are stored,
drops the custom colors made redundant by the new palette template, updates
the themes with the remaining custom colors and reports them to the UI;
when no pywal colors are stored it returns immediately. -/
def applyUpdatedPaletteTemplate (env : Env) (s : ExtState) (tpl : PaletteTemplate) :
    ExtState × List Event :=
  match s.pywalColors with
  | none => (s, [])
  | some pywalColors =>
    let customColors := s.customColors.map (filterCustomColors pywalColors tpl)
    let r := updateThemes env s pywalColors customColors
    (r.1, r.2 ++ [Event.customColorsSent customColors])

/-- Extension.setCssFontSize: forwards the font size to the native app when
the value is defined and between 10 and 20 inclusive, and sends an error
notification otherwise. The stored font size is untouched either way (it is
only updated later, by cssFontSizeSetSuccess). -/
def setCssFontSize (s : ExtState) (value : Option Int) : ExtState × List Event :=
  match value with
  | some v =>
    if 10 ≤ v ∧ v ≤ 20 then
      (s, [Event.fontSizeRequested userChromeTarget v])
    else
      (s, [Event.notified "Font size error" "Invalid size or not set"])
  | none => (s, [Event.notified "Font size error" "Invalid size or not set"])

/-- Extension.setSavedColorscheme: applies the browser part of a saved
colorscheme, its extension part to both pages, and sets the applied flag. -/
def setSavedColorscheme (s : ExtState) (colorscheme : Colorscheme) :
    ExtState × List Event :=
  ({ s with applied := true },
    Event.browserThemeSet colorscheme.browser ::
      updateExtensionPagesTheme (some colorscheme.extension))

/-- Extension.start, applied to the loaded persisted state: reapplies the
saved colorscheme when one is stored, then connects the native app. -/
def start (s : ExtState) : ExtState × List Event :=
  match s.colorscheme with
  | some colorscheme =>
    let r := setSavedColorscheme s colorscheme
    (r.1, r.2 ++ [Event.nativeConnected])
  | none => (s, [Event.nativeConnected])

/-!
The settings-page UI scripts.

`src/ui/settings.ts` toggles the `open` attribute of a setting card, and the
settings page of the extension keeps a current dialog (the colorpicker or
the themepicker) together with an overlay element, driven by `openDialog`
and `closeDialog`.
-/

/-- onSettingCardClick from src/ui/settings.ts, acting on the value of the
card's `open` attribute (`none` when the attribute is absent, which
getAttribute reports as null): an attribute equal to the empty string is
removed, anything else is set to the empty string. -/
def onSettingCardClick (openAttr : Option String) : Option String :=
  if openAttr = some "" then none else some ""

/-- The two dialog singletons of the settings page. -/
inductive DialogId where
  | colorpicker
  | themepicker
  deriving DecidableEq, Repr

/-- The settings-page dialog state: the current dialog (null when none is
open), the target each dialog was last opened with (set by `dialog.open`,
read by `getTarget`), and whether the overlay is open. Targets are the DOM
elements that triggered the dialog, modelled as numbers. -/
structure SettingsState where
  currentDialog : Option DialogId
  colorpickerTarget : Option Nat
  themepickerTarget : Option Nat
  overlayOpen : Bool
  deriving DecidableEq, Repr

/-- The initial settings-page state: no current dialog, no overlay. -/
def initialSettingsState : SettingsState :=
  { currentDialog := none
    colorpickerTarget := none
    themepickerTarget := none
    overlayOpen := false }

/-- getTarget of a dialog: the element it was last opened with. -/
def dialogTarget (s : SettingsState) (d : DialogId) : Option Nat :=
  match d with
  | .colorpicker => s.colorpickerTarget
  | .themepicker => s.themepickerTarget

/-- dialog.open(target): records the target the dialog was opened with. -/
def setDialogTarget (s : SettingsState) (d : DialogId) (target : Nat) : SettingsState :=
  match d with
  | .colorpicker => { s with colorpickerTarget := some target }
  | .themepicker => { s with themepickerTarget := some target }

/-- closeDialog: closes the current dialog when there is one and closes the
overlay when it is open. -/
def closeDialog (s : SettingsState) : SettingsState :=
  { s with currentDialog := none, overlayOpen := false }

/-- openDialog(dialog, target): opens the overlay when closed; when the
requested dialog is already current (and, for the colorpicker, was opened
on the same target) it closes everything; otherwise it closes any other
open dialog, opens the requested one on the target and makes it current. -/
def openDialog (s : SettingsState) (dialog : DialogId) (target : Nat) : SettingsState :=
  let s1 := { s with overlayOpen := true }
  if s1.currentDialog = some dialog ∧
      (dialog ≠ DialogId.colorpicker ∨ dialogTarget s1 dialog = some target) then
    closeDialog s1
  else
    { setDialogTarget s1 dialog target with currentDialog := some dialog }

/-- A user interaction with the dialogs of the settings page. -/
inductive SettingsOp where
  | openOp (dialog : DialogId) (target : Nat)
  | closeOp
  deriving DecidableEq, Repr

/-- Applies one dialog interaction to the settings-page state. -/
def applySettingsOp (s : SettingsState) : SettingsOp → SettingsState
  | .openOp d t => openDialog s d t
  | .closeOp => closeDialog s

/-- Runs a sequence of dialog interactions from a given state. -/
def runSettingsOps (s : SettingsState) (ops : List SettingsOp) : SettingsState :=
  ops.foldl applySettingsOp s

/-!
Concrete data used to exercise the theorems.
-/

/-- A concrete colorscheme. -/
def sampleColorscheme : Colorscheme :=
  { hash := "h", browser := "b", extension := "e", duckduckgo := "d" }

/-- A concrete colorscheme template. -/
def sampleTemplate : ColorschemeTemplate :=
  { palette := [("background", 0)], browser := "tpl" }

/-- A concrete extension state holding a saved colorscheme, stored custom
colors and the DuckDuckGo option disabled. -/
def sampleState : ExtState :=
  { pywalColors := some ["c0", "c1"]
    colorscheme := some sampleColorscheme
    customColors := some [("background", "c9")]
    applied := true
    ddgEnabled := false
    template := sampleTemplate
    cssFontSize := 14 }

/-- An environment that records in the generated browser theme whether a
custom colors argument was given to generateColorscheme, to separate the
custom colors that were passed from the ones stored in state. -/
def probeEnv : Env :=
  { extendPywalColors := fun colors => colors
    generateColorscheme := fun _ customColors _ =>
      { hash := "h"
        browser := if customColors = none then "withoutCustom" else "withCustom"
        extension := "e"
        duckduckgo := "d" } }

/-- A palette template sending the background palette color to index 1. -/
def demoTpl : PaletteTemplate := [("background", 1)]

/-- A concrete extension state whose stored custom background color equals
the pywal color that demoTpl selects for it. -/
def demoState : ExtState :=
  { pywalColors := some ["c0", "c1"]
    colorscheme := none
    customColors := some [("background", "c1")]
    applied := false
    ddgEnabled := true
    template := sampleTemplate
    cssFontSize := 14 }

/-!
The claims.
-/

/-- C1, as stated, is refuted: in onPywalColorsReceived the colorscheme is
not generated from the custom colors stored in state. With an environment
whose generateColorscheme distinguishes a missing custom colors argument,
and a state storing custom colors, the browser theme generated from the
stored custom colors is never applied. -/
theorem c1_stored_custom_colors_counterexample :
    ¬ Event.browserThemeSet
        (probeEnv.generateColorscheme (probeEnv.extendPywalColors ["c0"])
          sampleState.customColors sampleState.template).browser
      ∈ (onPywalColorsReceived probeEnv sampleState ["c0"]).2 := by
  decide

/-- C1 (amended: the colorscheme is generated from the extended colors,
no custom colors — updateThemes is called without a custom colors argument,
and the stored custom colors are replaced by null — and the current
template): for every raw palette received, onPywalColorsReceived extends
the colors, reports them, and updateThemes applies the browser component of
the colorscheme generated from the extended colors and the current template
via the browser theme API and its extension component to both extension
pages, storing the generated colorscheme. -/
theorem c1_pywal_colors_pipeline (env : Env) (s : ExtState) (raw : PywalColors) :
    (onPywalColorsReceived env s raw).1 =
      (updateThemes env s (env.extendPywalColors raw) none).1 ∧
    Event.pywalColorsSent (env.extendPywalColors raw) ∈ (onPywalColorsReceived env s raw).2 ∧
    Event.browserThemeSet
        (env.generateColorscheme (env.extendPywalColors raw) none s.template).browser
      ∈ (onPywalColorsReceived env s raw).2 ∧
    Event.settingsPageThemeSet
        (some (env.generateColorscheme (env.extendPywalColors raw) none s.template).extension)
      ∈ (onPywalColorsReceived env s raw).2 ∧
    Event.updatePageThemeSet
        (some (env.generateColorscheme (env.extendPywalColors raw) none s.template).extension)
      ∈ (onPywalColorsReceived env s raw).2 ∧
    (onPywalColorsReceived env s raw).1.colorscheme =
      some (env.generateColorscheme (env.extendPywalColors raw) none s.template) := by
  refine ⟨rfl, ?_, ?_, ?_, ?_, rfl⟩ <;>
    simp [onPywalColorsReceived, updateThemes, updateExtensionPagesTheme]

/-- C2: start() applied to the loaded state reapplies a stored colorscheme
(browser part to the browser theme, extension part to both pages) and sets
the applied flag; when no colorscheme is stored, no theme is applied and
the state is unchanged. -/
theorem c2_start_reapplies_saved (s : ExtState) :
    (∀ cs, s.colorscheme = some cs →
      (start s).2 =
        [Event.browserThemeSet cs.browser,
          Event.settingsPageThemeSet (some cs.extension),
          Event.updatePageThemeSet (some cs.extension),
          Event.nativeConnected] ∧
      (start s).1.applied = true) ∧
    (s.colorscheme = none →
      (start s).1 = s ∧ (start s).2 = [Event.nativeConnected]) := by
  constructor
  · intro cs h
    simp [start, h, setSavedColorscheme, updateExtensionPagesTheme]
  · intro h
    simp [start, h]

/-- Witness for C2 at a concrete state with a saved colorscheme. -/
theorem c2_start_reapplies_saved_witness :
    (start sampleState).2 =
      [Event.browserThemeSet sampleColorscheme.browser,
        Event.settingsPageThemeSet (some sampleColorscheme.extension),
        Event.updatePageThemeSet (some sampleColorscheme.extension),
        Event.nativeConnected] ∧
    (start sampleState).1.applied = true :=
  (c2_start_reapplies_saved sampleState).1 sampleColorscheme rfl

/-- C3, as stated, is refuted: a theme update performed by updateThemes
does not set the DuckDuckGo theme when the DuckDuckGo option is disabled in
state. -/
theorem c3_ddg_counterexample :
    ¬ Event.ddgThemeSet
        (probeEnv.generateColorscheme ["c0"] none sampleState.template).hash
        (probeEnv.generateColorscheme ["c0"] none sampleState.template).duckduckgo
      ∈ (updateThemes probeEnv sampleState ["c0"] none).2 := by
  decide

/-- C3 (amended: only while the DuckDuckGo option is enabled): a theme
update performed by updateThemes sets the DuckDuckGo theme from the
generated colorscheme's duckduckgo component and hash exactly when the
DuckDuckGo option is enabled in state. -/
theorem c3_ddg_theme_iff_enabled (env : Env) (s : ExtState) (p : PywalColors)
    (cc : Option CustomColors) :
    (Event.ddgThemeSet (env.generateColorscheme p cc s.template).hash
        (env.generateColorscheme p cc s.template).duckduckgo
      ∈ (updateThemes env s p cc).2) ↔ s.ddgEnabled = true := by
  cases hd : s.ddgEnabled <;>
    simp [updateThemes, updateExtensionPagesTheme, hd]

/-- C4: after updateThemes the persisted state holds the given pywal
colors, the colorscheme generated from them with the current template, the
given custom colors (none when none were passed) and the applied flag set;
after resetThemes the stored pywal colors, colorscheme and custom colors
are null and the applied flag is cleared. -/
theorem c4_update_and_reset_state (env : Env) (s t : ExtState) (p : PywalColors)
    (cc : Option CustomColors) :
    ((updateThemes env s p cc).1.pywalColors = some p ∧
      (updateThemes env s p cc).1.colorscheme =
        some (env.generateColorscheme p cc s.template) ∧
      (updateThemes env s p cc).1.customColors = cc ∧
      (updateThemes env s p cc).1.applied = true) ∧
    ((resetThemes t).1.pywalColors = none ∧
      (resetThemes t).1.colorscheme = none ∧
      (resetThemes t).1.customColors = none ∧
      (resetThemes t).1.applied = false) :=
  ⟨⟨rfl, rfl, rfl, rfl⟩, rfl, rfl, rfl, rfl⟩

/-- C5: when pywal colors are stored, applyUpdatedPaletteTemplate removes
from the custom colors exactly the entries whose value equals the pywal
color the new template selects for them, stores the remaining custom colors
and regenerates the colorscheme from them; when no pywal colors are stored
it changes neither the themes nor the custom colors (state untouched, no
effects). -/
theorem c5_palette_template_update (env : Env) (s : ExtState) (tpl : PaletteTemplate) :
    (∀ p, s.pywalColors = some p →
      ((applyUpdatedPaletteTemplate env s tpl).1.customColors =
          s.customColors.map (filterCustomColors p tpl) ∧
        (applyUpdatedPaletteTemplate env s tpl).1.colorscheme =
          some (env.generateColorscheme p
            (s.customColors.map (filterCustomColors p tpl)) s.template) ∧
        ∀ old k v, s.customColors = some old →
          ((k, v) ∈ filterCustomColors p tpl old ↔
            (k, v) ∈ old ∧ pywalLookup p (List.lookup k tpl) ≠ some v))) ∧
    (s.pywalColors = none → applyUpdatedPaletteTemplate env s tpl = (s, [])) := by
  constructor
  · intro p hp
    refine ⟨?_, ?_, ?_⟩
    · simp [applyUpdatedPaletteTemplate, hp, updateThemes]
    · simp [applyUpdatedPaletteTemplate, hp, updateThemes]
    · intro old k v _
      simp [filterCustomColors, List.mem_filter]
  · intro hp
    simp [applyUpdatedPaletteTemplate, hp]

/-- Witness for C5 at a concrete state whose custom background color equals
the pywal color selected by the new template, so the entry is removed. -/
theorem c5_palette_template_update_witness :
    (applyUpdatedPaletteTemplate probeEnv demoState demoTpl).1.customColors =
      demoState.customColors.map (filterCustomColors ["c0", "c1"] demoTpl) ∧
    (("background", "c1") ∈ filterCustomColors ["c0", "c1"] demoTpl [("background", "c1")] ↔
      ("background", "c1") ∈ [("background", "c1")] ∧
        pywalLookup ["c0", "c1"] (List.lookup "background" demoTpl) ≠ some "c1") :=
  ⟨((c5_palette_template_update probeEnv demoState demoTpl).1 ["c0", "c1"] rfl).1,
    ((c5_palette_template_update probeEnv demoState demoTpl).1 ["c0", "c1"] rfl).2.2
      [("background", "c1")] "background" "c1" rfl⟩

/-- C6: setCssFontSize forwards a font-size request to the native app
exactly when the value is defined and between 10 and 20 inclusive; for
every other input it sends an error notification and no native request, and
it never changes the state (so the stored font size is unchanged). -/
theorem c6_font_size_validation (s : ExtState) (value : Option Int) :
    (setCssFontSize s value).1 = s ∧
    (∀ v, value = some v → 10 ≤ v → v ≤ 20 →
      (setCssFontSize s value).2 = [Event.fontSizeRequested userChromeTarget v]) ∧
    ((¬ ∃ v, value = some v ∧ 10 ≤ v ∧ v ≤ 20) →
      (setCssFontSize s value).2 =
        [Event.notified "Font size error" "Invalid size or not set"] ∧
      ∀ t x, Event.fontSizeRequested t x ∉ (setCssFontSize s value).2) := by
  rcases value with _ | v
  · refine ⟨rfl, ?_, ?_⟩
    · intro v h
      cases h
    · intro _
      exact ⟨rfl, by simp [setCssFontSize]⟩
  · refine ⟨?_, ?_, ?_⟩
    · simp only [setCssFontSize]
      split <;> rfl
    · intro w hw h10 h20
      injection hw with hw
      subst hw
      simp [setCssFontSize, h10, h20]
    · intro hno
      have hout : ¬ (10 ≤ v ∧ v ≤ 20) := fun h => hno ⟨v, rfl, h.1, h.2⟩
      constructor
      · simp [setCssFontSize, hout]
      · intro t x
        simp [setCssFontSize, hout]

/-- Witness for C6: an in-range value is forwarded, an out-of-range one
produces the error notification. -/
theorem c6_font_size_validation_witness :
    (setCssFontSize sampleState (some 15)).2 =
      [Event.fontSizeRequested userChromeTarget 15] ∧
    (setCssFontSize sampleState (some 25)).2 =
      [Event.notified "Font size error" "Invalid size or not set"] :=
  ⟨(c6_font_size_validation sampleState (some 15)).2.1 15 rfl (by decide) (by decide),
    ((c6_font_size_validation sampleState (some 25)).2.2 (by decide)).1⟩

/-- Helper for C7: after any single dialog interaction the overlay is open
exactly when a dialog is current, whatever the starting state. -/
theorem applySettingsOp_inv (s : SettingsState) (op : SettingsOp) :
    (applySettingsOp s op).overlayOpen = (applySettingsOp s op).currentDialog.isSome := by
  cases op with
  | closeOp => rfl
  | openOp d t =>
    simp only [applySettingsOp, openDialog]
    split
    · rfl
    · cases d <;> rfl

/-- Helper for C7: the overlay-tracks-dialog invariant is preserved by any
sequence of dialog interactions. -/
theorem runSettingsOps_inv (ops : List SettingsOp) (s : SettingsState)
    (h : s.overlayOpen = s.currentDialog.isSome) :
    (runSettingsOps s ops).overlayOpen = (runSettingsOps s ops).currentDialog.isSome := by
  induction ops generalizing s with
  | nil => exact h
  | cons op rest ih => exact ih (applySettingsOp s op) (applySettingsOp_inv s op)

/-- C7: from the settings page's initial state, after any finite sequence
of openDialog and closeDialog calls the overlay is open exactly when a
dialog is current; and opening the dialog that is already current (for the
colorpicker, with the same target) closes both the dialog and the
overlay. -/
theorem c7_overlay_tracks_dialog :
    (∀ ops : List SettingsOp,
      (runSettingsOps initialSettingsState ops).overlayOpen =
        (runSettingsOps initialSettingsState ops).currentDialog.isSome) ∧
    (∀ (s : SettingsState) (d : DialogId) (t : Nat),
      s.currentDialog = some d →
      (d ≠ DialogId.colorpicker ∨ dialogTarget s d = some t) →
      (openDialog s d t).currentDialog = none ∧
        (openDialog s d t).overlayOpen = false) := by
  constructor
  · intro ops
    exact runSettingsOps_inv ops initialSettingsState rfl
  · intro s d t hcur hsame
    have htgt : dialogTarget { s with overlayOpen := true } d = dialogTarget s d := by
      cases d <;> rfl
    have hcond : ({ s with overlayOpen := true } : SettingsState).currentDialog = some d ∧
        (d ≠ DialogId.colorpicker ∨
          dialogTarget { s with overlayOpen := true } d = some t) := by
      refine ⟨hcur, ?_⟩
      rcases hsame with h | h
      · exact Or.inl h
      · exact Or.inr (htgt.trans h)
    simp only [openDialog]
    rw [if_pos hcond]
    exact ⟨rfl, rfl⟩

/-- Witness for C7: reopening the currently-open themepicker closes the
dialog and the overlay. -/
theorem c7_overlay_tracks_dialog_witness :
    (openDialog
        { currentDialog := some DialogId.themepicker
          colorpickerTarget := none
          themepickerTarget := some 3
          overlayOpen := true }
        DialogId.themepicker 3).currentDialog = none ∧
    (openDialog
        { currentDialog := some DialogId.themepicker
          colorpickerTarget := none
          themepickerTarget := some 3
          overlayOpen := true }
        DialogId.themepicker 3).overlayOpen = false :=
  c7_overlay_tracks_dialog.2
    { currentDialog := some DialogId.themepicker
      colorpickerTarget := none
      themepickerTarget := some 3
      overlayOpen := true }
    DialogId.themepicker 3 rfl (Or.inl (by decide))

/-- C8: on a card whose open attribute is absent or empty, a click flips
whether the attribute is present (absent becomes empty, empty becomes
absent), and two clicks restore the attribute exactly. -/
theorem c8_setting_card_toggle (a : Option String) (h : a = none ∨ a = some "") :
    onSettingCardClick (onSettingCardClick a) = a ∧
    (a = none → onSettingCardClick a = some "") ∧
    (a = some "" → onSettingCardClick a = none) := by
  rcases h with h | h <;> subst h <;> refine ⟨?_, ?_, ?_⟩ <;>
    simp [onSettingCardClick]

/-- Witness for C8 on a card with the attribute absent. -/
theorem c8_setting_card_toggle_witness :
    onSettingCardClick (onSettingCardClick none) = none ∧
    ((none : Option String) = none → onSettingCardClick none = some "") ∧
    ((none : Option String) = some "" → onSettingCardClick none = none) :=
  c8_setting_card_toggle none (Or.inl rfl)
